import Mathlib

/-!
Shallow embedding of `src/sw.js`, a single-file browser service worker:

```
self.addEventListener('push', function(event) {
  const data = event.data ? event.data.json() : { title: "默认标题", body: "没有消息内容" };
  event.waitUntil(
    self.registration.showNotification(data.title, {
      body: data.body,
      icon: '/icon.png'
    })
  );
});
```

Modelling choices:
* A JSON value is the inductive `Json`.  The result of `event.data.json()`
  is modelled as `Except String Json` (an error carries the parse-failure
  message); the optional data blob of the event is
  `Option (Except String Json)` (`none` = `event.data` is null/absent).
* JavaScript property access `data.title` is `Json.lookup`: on an object it
  returns the value of the last binding of the key (JSON.parse keeps the
  last duplicate), on any other value or a missing key it returns `none`
  (JavaScript `undefined`).
* The handler body is the function `handlePush`.  Its observable behaviour
  is a `HandlerResult`: the list of `showNotification` invocations made
  (`displays`, in order) and the list of pending-operation handles passed
  to `event.waitUntil` (`waitedOn`, each handle an index into `displays`).
  A thrown exception (the uncaught `json()` failure) is `Except.error`.
* The top level of the script is `scriptRegistrations`: the event-listener
  registrations performed once at load time.
-/

inductive Json where
  | null : Json
  | bool (b : Bool) : Json
  | num (n : Int) : Json
  | str (s : String) : Json
  | arr (items : List Json) : Json
  | obj (fields : List (String × Json)) : Json

/-- JavaScript property access on a parsed JSON value: on an object, the
value of the last binding of the key (JSON.parse keeps the last duplicate
key); otherwise `none`, i.e. `undefined`. -/
def Json.lookup : Json → String → Option Json
  | .obj fields, key => (fields.reverse.find? (fun p => p.1 == key)).map (fun p => p.2)
  | _, _ => none

/-- The options object passed as second argument to `showNotification`:
`{ body: data.body, icon: '/icon.png' }`.  `body := none` models the field
holding JavaScript `undefined`. -/
structure DisplayOptions where
  body : Option Json
  icon : String


/-- One invocation of `self.registration.showNotification(title, options)`.
`title := none` models passing `undefined` as the heading. -/
structure DisplayCall where
  title : Option Json
  options : DisplayOptions


/-- The observable effects of one run of the push handler:
`displays` is the ordered list of `showNotification` invocations, and
`waitedOn` lists the pending-operation handles passed to `event.waitUntil`,
each handle being the index of the display call whose promise it is. -/
structure HandlerResult where
  displays : List DisplayCall
  waitedOn : List Nat


/-- The fallback title literal of line 2 of `sw.js`. -/
def fallbackTitle : String := "默认标题"

/-- The fallback body literal of line 2 of `sw.js`. -/
def fallbackBody : String := "没有消息内容"

/-- The object literal `{ title: "默认标题", body: "没有消息内容" }` used when
`event.data` is absent. -/
def fallbackObject : Json :=
  Json.obj [("title", Json.str fallbackTitle), ("body", Json.str fallbackBody)]

/-- The push handler of `sw.js`, as a function of the event's optional data
blob (already reflected through `event.data.json()`):
`none` is an event without data, `some (Except.error e)` is a data blob on
which `json()` throws with message `e`, `some (Except.ok j)` is a blob that
parses to `j`.  An `Except.error` result is the exception propagating out
of the handler uncaught. -/
def handlePush (eventData : Option (Except String Json)) : Except String HandlerResult :=
  let parsed : Except String Json :=
    match eventData with
    | none => Except.ok fallbackObject
    | some r => r
  match parsed with
  | Except.error e => Except.error e
  | Except.ok data =>
      Except.ok
        { displays := [{ title := data.lookup "title",
                         options := { body := data.lookup "body", icon := "/icon.png" } }],
          waitedOn := [0] }

/-- Number of `showNotification` invocations of a handler run (zero when
the handler threw before reaching the call). -/
def numDisplays (r : Except String HandlerResult) : Nat :=
  match r with
  | Except.error _ => 0
  | Except.ok res => res.displays.length

/-- One `addEventListener` registration performed by the script. -/
structure Registration where
  eventType : String
  pushHandler : Option (Except String Json) → Except String HandlerResult

/-- The registrations performed by the top level of `sw.js` at load time:
exactly one, for the `push` event type. -/
def scriptRegistrations : List Registration :=
  [{ eventType := "push", pushHandler := handlePush }]

/-- The example payload of the spec:
`{"title":"Meeting","body":"Starts in 5 minutes"}`. -/
def meetingJson : Json :=
  Json.obj [("title", Json.str "Meeting"), ("body", Json.str "Starts in 5 minutes")]

/-- C1: for every push event whose data blob is present and parses as a
JSON object carrying both a `title` field `T` and a `body` field `B`, the
handler invokes `showNotification` exactly once, with heading `T`, an
options object whose body is `B`, and icon path `/icon.png`, and passes
that call's handle to `event.waitUntil`. -/
theorem push_valid_payload_display
    (j : Json) (t b : Json)
    (ht : j.lookup "title" = some t) (hb : j.lookup "body" = some b) :
    handlePush (some (Except.ok j)) =
      Except.ok
        { displays := [{ title := some t,
                         options := { body := some b, icon := "/icon.png" } }],
          waitedOn := [0] } := by
  simp [handlePush, ht, hb]

/-- Witness for C1 at the spec's example payload
`{"title":"Meeting","body":"Starts in 5 minutes"}`. -/
theorem push_valid_payload_display_witness :
    meetingJson.lookup "title" = some (Json.str "Meeting") ∧
    meetingJson.lookup "body" = some (Json.str "Starts in 5 minutes") ∧
    handlePush (some (Except.ok meetingJson)) =
      Except.ok
        { displays := [{ title := some (Json.str "Meeting"),
                         options := { body := some (Json.str "Starts in 5 minutes"),
                                      icon := "/icon.png" } }],
          waitedOn := [0] } :=
  ⟨rfl, rfl, push_valid_payload_display meetingJson _ _ rfl rfl⟩

/-- C2: for every push event with no data blob attached, the handler
invokes `showNotification` with the fallback title `默认标题` as heading,
the fallback body `没有消息内容`, and the fixed icon `/icon.png`. -/
theorem push_no_data_fallback :
    handlePush none =
      Except.ok
        { displays := [{ title := some (Json.str fallbackTitle),
                         options := { body := some (Json.str fallbackBody),
                                      icon := "/icon.png" } }],
          waitedOn := [0] } := rfl

/-- C3: when the data blob parses as a JSON object containing only a
`title` field and no `body` field, the display call's body option is
`undefined` (`none`), not the fallback body string. -/
theorem push_title_only_body_undefined
    (j : Json) (t : Json)
    (ht : j.lookup "title" = some t) (hb : j.lookup "body" = none) :
    handlePush (some (Except.ok j)) =
      Except.ok
        { displays := [{ title := some t,
                         options := { body := none, icon := "/icon.png" } }],
          waitedOn := [0] } ∧
    (none : Option Json) ≠ some (Json.str fallbackBody) := by
  constructor
  · simp [handlePush, ht, hb]
  · intro h
    exact Option.noConfusion h

/-- Witness for C3 at the payload `{"title":"hi"}`. -/
theorem push_title_only_body_undefined_witness :
    (Json.obj [("title", Json.str "hi")]).lookup "title" = some (Json.str "hi") ∧
    (Json.obj [("title", Json.str "hi")]).lookup "body" = none ∧
    (handlePush (some (Except.ok (Json.obj [("title", Json.str "hi")]))) =
      Except.ok
        { displays := [{ title := some (Json.str "hi"),
                         options := { body := none, icon := "/icon.png" } }],
          waitedOn := [0] } ∧
     (none : Option Json) ≠ some (Json.str fallbackBody)) :=
  ⟨rfl, rfl, push_title_only_body_undefined (Json.obj [("title", Json.str "hi")]) _ rfl rfl⟩

/-- C4: when the data blob is present but `json()` fails, the failure
propagates out of the handler unchanged and `showNotification` is never
invoked. -/
theorem push_malformed_data_propagates (e : String) :
    handlePush (some (Except.error e)) = Except.error e ∧
    numDisplays (handlePush (some (Except.error e))) = 0 :=
  ⟨rfl, rfl⟩

/-- Icons of the `showNotification` invocations of a handler run, in
order. -/
def displayIcons (r : Except String HandlerResult) : List String :=
  match r with
  | Except.error _ => []
  | Except.ok res => res.displays.map (fun c => c.options.icon)

/-- C5 counterexample: at the payload `{"title":"note"}` (present, valid
JSON, but without a `body` field) the display call's body is `none`
(`undefined`), so the payload handed to `showNotification` is not fully
populated: the claimed invariant fails. -/
theorem push_always_populated_counterexample :
    ¬ (∀ r, handlePush (some (Except.ok (Json.obj [("title", Json.str "note")]))) =
          Except.ok r →
        ∀ call ∈ r.displays, call.title ≠ none ∧ call.options.body ≠ none) := by
  intro h
  exact (h _ rfl _ (List.mem_singleton.mpr rfl)).2 rfl

/-- C5 amended: the payload handed to the display call is fully populated
only in the fallback case — when the event carries no data, both fields
are the (non-absent) fallback strings; when the event data parses to `j`,
each field equals the corresponding property lookup on `j` and is absent
exactly when `j` omits it. -/
theorem push_payload_population
    (eventData : Option (Except String Json)) (r : HandlerResult)
    (h : handlePush eventData = Except.ok r) :
    ∀ call ∈ r.displays,
      (eventData = none →
        call.title = some (Json.str fallbackTitle) ∧
        call.options.body = some (Json.str fallbackBody)) ∧
      (∀ j, eventData = some (Except.ok j) →
        call.title = j.lookup "title" ∧ call.options.body = j.lookup "body") := by
  cases eventData with
  | none =>
      have h' := Except.ok.inj h
      subst h'
      intro call hmem
      rw [List.mem_singleton] at hmem
      subst hmem
      exact ⟨fun _ => ⟨rfl, rfl⟩, fun j hj => Option.noConfusion hj⟩
  | some res =>
      cases res with
      | error e => exact Except.noConfusion h
      | ok j =>
          have h' := Except.ok.inj h
          subst h'
          intro call hmem
          rw [List.mem_singleton] at hmem
          subst hmem
          refine ⟨fun hn => Option.noConfusion hn, fun j' hj => ?_⟩
          have hj' := Except.ok.inj (Option.some.inj hj)
          subst hj'
          exact ⟨rfl, rfl⟩

/-- Witness for the amended C5, at an event with no data: both fields of
the display call are the non-absent fallback strings. -/
theorem push_payload_population_witness :
    ({ title := some (Json.str fallbackTitle),
       options := { body := some (Json.str fallbackBody),
                    icon := "/icon.png" } } : DisplayCall).title =
        some (Json.str fallbackTitle) ∧
    ({ title := some (Json.str fallbackTitle),
       options := { body := some (Json.str fallbackBody),
                    icon := "/icon.png" } } : DisplayCall).options.body =
        some (Json.str fallbackBody) :=
  (push_payload_population none
      { displays := [{ title := some (Json.str fallbackTitle),
                       options := { body := some (Json.str fallbackBody),
                                    icon := "/icon.png" } }],
        waitedOn := [0] } rfl _ (List.mem_singleton.mpr rfl)).1 rfl

/-- C6: on every input — absent data, valid data, malformed data — the
handler invokes `showNotification` at most once. -/
theorem push_at_most_one_display (eventData : Option (Except String Json)) :
    numDisplays (handlePush eventData) ≤ 1 := by
  cases eventData with
  | none => exact Nat.le_refl 1
  | some res => cases res with
    | error e => exact Nat.zero_le 1
    | ok j => exact Nat.le_refl 1

/-- C7: every handler run that reaches the display call passes the pending
display operation's handle (the index of its single `showNotification`
invocation) to `event.waitUntil`. -/
theorem push_waits_on_display
    (eventData : Option (Except String Json)) (r : HandlerResult)
    (h : handlePush eventData = Except.ok r) :
    r.displays.length = 1 ∧ r.waitedOn = [0] := by
  cases eventData with
  | none =>
      have h' := Except.ok.inj h
      subst h'
      exact ⟨rfl, rfl⟩
  | some res => cases res with
    | error e => exact Except.noConfusion h
    | ok j =>
        have h' := Except.ok.inj h
        subst h'
        exact ⟨rfl, rfl⟩

/-- Witness for C7 at an event with no data. -/
theorem push_waits_on_display_witness :
    ({ displays := [{ title := some (Json.str fallbackTitle),
                      options := { body := some (Json.str fallbackBody),
                                   icon := "/icon.png" } }],
       waitedOn := [0] } : HandlerResult).displays.length = 1 ∧
    ({ displays := [{ title := some (Json.str fallbackTitle),
                      options := { body := some (Json.str fallbackBody),
                                   icon := "/icon.png" } }],
       waitedOn := [0] } : HandlerResult).waitedOn = [0] :=
  push_waits_on_display none _ rfl

/-- C8: every `showNotification` invocation, on every input, carries the
fixed icon path `/icon.png` in its options: the list of icons of a run is
`/icon.png` repeated once per display call. -/
theorem push_icon_always_fixed (eventData : Option (Except String Json)) :
    displayIcons (handlePush eventData) =
      List.replicate (numDisplays (handlePush eventData)) "/icon.png" := by
  cases eventData with
  | none => rfl
  | some res => cases res with
    | error e => rfl
    | ok j => rfl

/-- C9: the top level of the script performs exactly one event-listener
registration, and it is for the `push` event type with the push handler. -/
theorem script_registers_one_push_handler :
    scriptRegistrations.length = 1 ∧
    scriptRegistrations.map Registration.eventType = ["push"] ∧
    scriptRegistrations.map Registration.pushHandler = [handlePush] :=
  ⟨rfl, rfl, rfl⟩

/-- C10: the handler is deterministic — two push events carrying the same
data blob (or both carrying none) produce the same outcome: the same
display calls and waits in the success cases, the same propagated parse
failure in the malformed case. -/
theorem push_handler_deterministic
    (d1 d2 : Option (Except String Json)) (h : d1 = d2) :
    handlePush d1 = handlePush d2 := by
  rw [h]

/-- Witness for C10 at the spec's example payload. -/
theorem push_handler_deterministic_witness :
    (some (Except.ok meetingJson) : Option (Except String Json)) =
      some (Except.ok meetingJson) ∧
    handlePush (some (Except.ok meetingJson)) =
      handlePush (some (Except.ok meetingJson)) :=
  ⟨rfl, push_handler_deterministic (some (Except.ok meetingJson))
          (some (Except.ok meetingJson)) rfl⟩
